import Mathlib

/-!
Shallow embedding of the piston generic event dispatch core
(src/input/src/{generic_event,focus,controller,update}.rs).

Modelling conventions:
- Rust `f64` payload fields are carried opaquely by this core (stored and
  compared, never computed with), so they are embedded as `Rat`, which is
  executable and has decidable equality.
- Rust `&Any` with `downcast_ref::<T>` is embedded as the closed sum
  `AnyVal` over the payload types that ever appear, with one downcast
  function per Rust type; two Rust types that coincide (for example the
  `(f64, f64)` pair used by all three mouse motions) share one constructor,
  exactly as they share one `Any` runtime type.
- `panic!(msg)` is embedded as `Except.error msg`; a normal return `r` of
  `from_args` becomes `Except.ok r`.
- The generic `impl<I: GenericEvent> ... for Event<I>` is embedded by
  passing the operations of `I` as explicit function arguments; theorems
  instantiate them with the operations of `Input`, the one `GenericEvent`
  type of the repository.
-/

/-- Modelled from the spec: `Button` is an opaque equality-comparable
identifier for a pressed or released control (its declaration is not under
src/). -/
structure Button where
  code : Nat
  deriving DecidableEq

/-- Modelled from the spec: touch payload record (declaration not under
src/; carried opaquely by the dispatch core). -/
structure TouchArgs where
  val : Nat
  deriving DecidableEq

/-- Modelled from the spec: render payload record (declaration not under
src/; carried opaquely by the dispatch core). -/
structure RenderArgs where
  val : Nat
  deriving DecidableEq

/-- Modelled from the spec: after-render payload record (declaration not
under src/; carried opaquely by the dispatch core). -/
structure AfterRenderArgs where
  val : Nat
  deriving DecidableEq

/-- Modelled from the spec: idle payload record (declaration not under
src/; carried opaquely by the dispatch core). -/
structure IdleArgs where
  dt : Rat
  deriving DecidableEq

/-- Components of a controller button event (controller.rs). -/
structure ControllerButton where
  id : Int
  button : Nat
  deriving DecidableEq

/-- Components of a controller axis move event (controller.rs):
`id: i32`, `axis: u8`, `position: f64`. -/
structure ControllerAxisArgs where
  id : Int
  axis : Nat
  position : Rat
  deriving DecidableEq

/-- Embeds `ControllerAxisArgs::new` (controller.rs). -/
def ControllerAxisArgs.new (id : Int) (axis : Nat) (position : Rat) :
    ControllerAxisArgs :=
  ControllerAxisArgs.mk id axis position

/-- Update arguments, such as delta time in seconds (update.rs). -/
structure UpdateArgs where
  dt : Rat
  deriving DecidableEq

/-- Modelled from the spec: `Motion`, the nested closed set of motion-class
input (declaration not under src/; its variant set is pinned by the
exhaustive matches of generic_event.rs). -/
inductive Motion where
  | MouseCursor : Rat → Rat → Motion
  | MouseRelative : Rat → Rat → Motion
  | MouseScroll : Rat → Rat → Motion
  | ControllerAxis : ControllerAxisArgs → Motion
  | Touch : TouchArgs → Motion
  deriving DecidableEq

/-- Modelled from the spec: `Input`, the closed composite of raw input
(declaration not under src/; its variant set is pinned by the exhaustive
matches of generic_event.rs). -/
inductive Input where
  | Cursor : Bool → Input
  | Focus : Bool → Input
  | Close : Input
  | Move : Motion → Input
  | Press : Button → Input
  | Release : Button → Input
  | Resize : Nat → Nat → Input
  | Text : String → Input
  deriving DecidableEq

/-- Modelled from the spec: `Event<I>`, the top-level composite over a
generic input type `I` (declaration not under src/; its variant set is
pinned by the exhaustive matches of generic_event.rs). -/
inductive Event (I : Type) where
  | Update : UpdateArgs → Event I
  | Render : RenderArgs → Event I
  | AfterRender : AfterRenderArgs → Event I
  | Idle : IdleArgs → Event I
  | Input : I → Event I
  deriving DecidableEq

/-- Modelled from the spec: the identity registry, one distinct stable
identifier per event kind (the `EventId` constants imported by
generic_event.rs are declared outside src/). -/
inductive EventId where
  | AFTER_RENDER
  | CONTROLLER_AXIS
  | CURSOR
  | FOCUS
  | CLOSE
  | IDLE
  | MOUSE_CURSOR
  | MOUSE_RELATIVE
  | MOUSE_SCROLL
  | PRESS
  | RENDER
  | RELEASE
  | RESIZE
  | TEXT
  | TOUCH
  | UPDATE
  deriving DecidableEq

/-- Embeds the `&Any` erased payload: a closed sum over every Rust type that
`with_args` passes or `from_args` downcasts to. -/
inductive AnyVal where
  | bool : Bool → AnyVal
  | optionUnit : Option Unit → AnyVal
  | controllerAxisArgs : ControllerAxisArgs → AnyVal
  | f64Pair : Rat → Rat → AnyVal
  | button : Button → AnyVal
  | u32Pair : Nat → Nat → AnyVal
  | str : String → AnyVal
  | touchArgs : TouchArgs → AnyVal
  | updateArgs : UpdateArgs → AnyVal
  | renderArgs : RenderArgs → AnyVal
  | afterRenderArgs : AfterRenderArgs → AnyVal
  | idleArgs : IdleArgs → AnyVal
  deriving DecidableEq

/-- Embeds `any.downcast_ref::\x3cbool\x3e()`. -/
def AnyVal.downcast_bool : AnyVal → Option Bool
  | AnyVal.bool b => some b
  | _ => none

/-- Embeds `any.downcast_ref::\x3cControllerAxisArgs\x3e()`. -/
def AnyVal.downcast_controllerAxisArgs : AnyVal → Option ControllerAxisArgs
  | AnyVal.controllerAxisArgs a => some a
  | _ => none

/-- Embeds `any.downcast_ref::\x3c(f64, f64)\x3e()`. -/
def AnyVal.downcast_f64Pair : AnyVal → Option (Rat × Rat)
  | AnyVal.f64Pair x y => some (x, y)
  | _ => none

/-- Embeds `any.downcast_ref::\x3cButton\x3e()`. -/
def AnyVal.downcast_button : AnyVal → Option Button
  | AnyVal.button b => some b
  | _ => none

/-- Embeds `any.downcast_ref::\x3c(u32, u32)\x3e()`. -/
def AnyVal.downcast_u32Pair : AnyVal → Option (Nat × Nat)
  | AnyVal.u32Pair w h => some (w, h)
  | _ => none

/-- Embeds `any.downcast_ref::\x3cString\x3e()`. -/
def AnyVal.downcast_string : AnyVal → Option String
  | AnyVal.str s => some s
  | _ => none

/-- Embeds `any.downcast_ref::\x3cTouchArgs\x3e()`. -/
def AnyVal.downcast_touchArgs : AnyVal → Option TouchArgs
  | AnyVal.touchArgs t => some t
  | _ => none

/-- Embeds `any.downcast_ref::\x3cUpdateArgs\x3e()`. -/
def AnyVal.downcast_updateArgs : AnyVal → Option UpdateArgs
  | AnyVal.updateArgs u => some u
  | _ => none

/-- Embeds `any.downcast_ref::\x3cRenderArgs\x3e()`. -/
def AnyVal.downcast_renderArgs : AnyVal → Option RenderArgs
  | AnyVal.renderArgs r => some r
  | _ => none

/-- Embeds `any.downcast_ref::\x3cAfterRenderArgs\x3e()`. -/
def AnyVal.downcast_afterRenderArgs : AnyVal → Option AfterRenderArgs
  | AnyVal.afterRenderArgs r => some r
  | _ => none

/-- Embeds `any.downcast_ref::\x3cIdleArgs\x3e()`. -/
def AnyVal.downcast_idleArgs : AnyVal → Option IdleArgs
  | AnyVal.idleArgs i => some i
  | _ => none

/-- Embeds `Input::event_id` (generic_event.rs lines 35-50). -/
def Input.event_id : Input → EventId
  | Input.Cursor _ => EventId.CURSOR
  | Input.Focus _ => EventId.FOCUS
  | Input.Close => EventId.CLOSE
  | Input.Move (Motion.MouseCursor _ _) => EventId.MOUSE_CURSOR
  | Input.Move (Motion.MouseRelative _ _) => EventId.MOUSE_RELATIVE
  | Input.Move (Motion.MouseScroll _ _) => EventId.MOUSE_SCROLL
  | Input.Move (Motion.ControllerAxis _) => EventId.CONTROLLER_AXIS
  | Input.Move (Motion.Touch _) => EventId.TOUCH
  | Input.Press _ => EventId.PRESS
  | Input.Release _ => EventId.RELEASE
  | Input.Resize _ _ => EventId.RESIZE
  | Input.Text _ => EventId.TEXT

/-- Embeds `Input::with_args` (generic_event.rs lines 52-81). -/
def Input.with_args {U : Type} (e : Input) (f : AnyVal → U) : U :=
  match e with
  | Input.Cursor cursor => f (AnyVal.bool cursor)
  | Input.Focus focused => f (AnyVal.bool focused)
  | Input.Close => f (AnyVal.optionUnit none)
  | Input.Move (Motion.ControllerAxis args) => f (AnyVal.controllerAxisArgs args)
  | Input.Move (Motion.MouseCursor x y) => f (AnyVal.f64Pair x y)
  | Input.Move (Motion.MouseRelative x y) => f (AnyVal.f64Pair x y)
  | Input.Move (Motion.MouseScroll x y) => f (AnyVal.f64Pair x y)
  | Input.Move (Motion.Touch args) => f (AnyVal.touchArgs args)
  | Input.Press button => f (AnyVal.button button)
  | Input.Release button => f (AnyVal.button button)
  | Input.Resize w h => f (AnyVal.u32Pair w h)
  | Input.Text text => f (AnyVal.str text)

/-- Embeds `Input::from_args` (generic_event.rs lines 83-164): the guard
chain on `event_id`, each arm downcasting and panicking on mismatch, with a
final default arm returning `None`.  Note there is no `CLOSE` arm in the
source. -/
def Input.from_args (event_id : EventId) (any : AnyVal) (_old_event : Input) :
    Except String (Option Input) :=
  if event_id = EventId.CONTROLLER_AXIS then
    match any.downcast_controllerAxisArgs with
    | some args => Except.ok (some (Input.Move (Motion.ControllerAxis args)))
    | none => Except.error "Expected ControllerAxisArgs"
  else if event_id = EventId.CURSOR then
    match any.downcast_bool with
    | some cursor => Except.ok (some (Input.Cursor cursor))
    | none => Except.error "Expected bool"
  else if event_id = EventId.FOCUS then
    match any.downcast_bool with
    | some focused => Except.ok (some (Input.Focus focused))
    | none => Except.error "Expected bool"
  else if event_id = EventId.MOUSE_CURSOR then
    match any.downcast_f64Pair with
    | some (x, y) => Except.ok (some (Input.Move (Motion.MouseCursor x y)))
    | none => Except.error "Expected (f64, f64)"
  else if event_id = EventId.MOUSE_RELATIVE then
    match any.downcast_f64Pair with
    | some (x, y) => Except.ok (some (Input.Move (Motion.MouseRelative x y)))
    | none => Except.error "Expected (f64, f64)"
  else if event_id = EventId.MOUSE_SCROLL then
    match any.downcast_f64Pair with
    | some (x, y) => Except.ok (some (Input.Move (Motion.MouseScroll x y)))
    | none => Except.error "Expected (f64, f64)"
  else if event_id = EventId.PRESS then
    match any.downcast_button with
    | some button => Except.ok (some (Input.Press button))
    | none => Except.error "Expected Button"
  else if event_id = EventId.RELEASE then
    match any.downcast_button with
    | some button => Except.ok (some (Input.Release button))
    | none => Except.error "Expected Button"
  else if event_id = EventId.RESIZE then
    match any.downcast_u32Pair with
    | some (w, h) => Except.ok (some (Input.Resize w h))
    | none => Except.error "Expected (u32, u32))"
  else if event_id = EventId.TEXT then
    match any.downcast_string with
    | some text => Except.ok (some (Input.Text text))
    | none => Except.error "Expected &str"
  else if event_id = EventId.TOUCH then
    match any.downcast_touchArgs with
    | some args => Except.ok (some (Input.Move (Motion.Touch args)))
    | none => Except.error "Expected TouchArgs"
  else Except.ok none

/-- Embeds `Event::<I>::event_id` (generic_event.rs lines 168-178);
`i_event_id` stands for the `event_id` of the inner `GenericEvent` type. -/
def Event.event_id {I : Type} (i_event_id : I → EventId) : Event I → EventId
  | Event.Update _ => EventId.UPDATE
  | Event.Render _ => EventId.RENDER
  | Event.AfterRender _ => EventId.AFTER_RENDER
  | Event.Idle _ => EventId.IDLE
  | Event.Input input => i_event_id input

/-- Embeds `Event::<I>::with_args` (generic_event.rs lines 180-200);
`i_with_args` stands for the `with_args` of the inner type. -/
def Event.with_args {I U : Type} (i_with_args : I → (AnyVal → U) → U)
    (e : Event I) (f : AnyVal → U) : U :=
  match e with
  | Event.Update args => f (AnyVal.updateArgs args)
  | Event.Render args => f (AnyVal.renderArgs args)
  | Event.AfterRender args => f (AnyVal.afterRenderArgs args)
  | Event.Idle args => f (AnyVal.idleArgs args)
  | Event.Input input => i_with_args input f

/-- Embeds `Event::<I>::from_args` (generic_event.rs lines 202-243): the
four tick identifiers are handled directly (panicking on payload mismatch);
any other identifier is delegated to the inner type only when the old event
is the `Input` variant, and returns `None` otherwise. -/
def Event.from_args {I : Type}
    (i_from_args : EventId → AnyVal → I → Except String (Option I))
    (event_id : EventId) (any : AnyVal) (old_event : Event I) :
    Except String (Option (Event I)) :=
  if event_id = EventId.UPDATE then
    match any.downcast_updateArgs with
    | some args => Except.ok (some (Event.Update args))
    | none => Except.error "Expected UpdateArgs"
  else if event_id = EventId.RENDER then
    match any.downcast_renderArgs with
    | some args => Except.ok (some (Event.Render args))
    | none => Except.error "Expected RenderArgs"
  else if event_id = EventId.AFTER_RENDER then
    match any.downcast_afterRenderArgs with
    | some args => Except.ok (some (Event.AfterRender args))
    | none => Except.error "Expected AfterRenderArgs"
  else if event_id = EventId.IDLE then
    match any.downcast_idleArgs with
    | some args => Except.ok (some (Event.Idle args))
    | none => Except.error "Expected IdleArgs"
  else
    match old_event with
    | Event.Input old_input =>
      match i_from_args event_id any old_input with
      | Except.ok (some x) => Except.ok (some (Event.Input x))
      | Except.ok none => Except.ok none
      | Except.error e => Except.error e
    | _ => Except.ok none

/-- Embeds `impl FocusEvent for Input`, `from_focused` (focus.rs 40-42). -/
def Input.from_focused (focused : Bool) (_old_event : Input) : Option Input :=
  some (Input.Focus focused)

/-- Embeds `impl FocusEvent for Input`, `focus` (focus.rs 44-51). -/
def Input.focus {U : Type} (e : Input) (f : Bool → U) : Option U :=
  match e with
  | Input.Focus focused => some (f focused)
  | _ => none

/-- Embeds the default method `focus_args` (focus.rs 11-13). -/
def Input.focus_args (e : Input) : Option Bool :=
  Input.focus e (fun val => val)

/-- Embeds `impl<I: FocusEvent> FocusEvent for Event<I>`, `from_focused`
(focus.rs 55-62); `i_from_focused` stands for `I::from_focused`. -/
def Event.from_focused {I : Type} (i_from_focused : Bool → I → Option I)
    (focused : Bool) (old_event : Event I) : Option (Event I) :=
  match old_event with
  | Event.Input old_input => (i_from_focused focused old_input).map Event.Input
  | _ => none

/-- Embeds `impl<I: FocusEvent> FocusEvent for Event<I>`, `focus`
(focus.rs 64-71); `i_focus` stands for `I::focus`. -/
def Event.focus {I U : Type} (i_focus : I → (Bool → U) → Option U)
    (e : Event I) (f : Bool → U) : Option U :=
  match e with
  | Event.Input x => i_focus x f
  | _ => none

/-- Embeds `impl ControllerAxisEvent for Input`, `from_controller_axis_args`
(controller.rs 95-100). -/
def Input.from_controller_axis_args (args : ControllerAxisArgs)
    (_old_event : Input) : Option Input :=
  some (Input.Move (Motion.ControllerAxis args))

/-- Embeds `impl ControllerAxisEvent for Input`, `controller_axis`
(controller.rs 102-109). -/
def Input.controller_axis {U : Type} (e : Input)
    (f : ControllerAxisArgs → U) : Option U :=
  match e with
  | Input.Move (Motion.ControllerAxis args) => some (f args)
  | _ => none

/-- Embeds the default method `controller_axis_args` (controller.rs 63-65). -/
def Input.controller_axis_args (e : Input) : Option ControllerAxisArgs :=
  Input.controller_axis e (fun args => args)

/-- Embeds `impl<I: ControllerAxisEvent> ControllerAxisEvent for Event<I>`,
`from_controller_axis_args` (controller.rs 113-123). -/
def Event.from_controller_axis_args {I : Type}
    (i_from_controller_axis_args : ControllerAxisArgs → I → Option I)
    (args : ControllerAxisArgs) (old_event : Event I) : Option (Event I) :=
  match old_event with
  | Event.Input old_input =>
    (i_from_controller_axis_args args old_input).map Event.Input
  | _ => none

/-- Embeds `impl<I: ControllerAxisEvent> ControllerAxisEvent for Event<I>`,
`controller_axis` (controller.rs 125-132). -/
def Event.controller_axis {I U : Type}
    (i_controller_axis : I → (ControllerAxisArgs → U) → Option U)
    (e : Event I) (f : ControllerAxisArgs → U) : Option U :=
  match e with
  | Event.Input x => i_controller_axis x f
  | _ => none

/-- Embeds `impl UpdateEvent for Input`, `from_update_args` (update.rs 51-53):
always `None`, `Input` holds no update variant. -/
def Input.from_update_args (_args : UpdateArgs) (_old_event : Input) :
    Option Input :=
  none

/-- Embeds `impl UpdateEvent for Input`, `update` (update.rs 55-59):
always `None`. -/
def Input.update {U : Type} (_e : Input) (_f : UpdateArgs → U) : Option U :=
  none

/-- Embeds `impl<I: GenericEvent> UpdateEvent for Event<I>`,
`from_update_args` (update.rs 63-65). -/
def Event.from_update_args {I : Type} (args : UpdateArgs)
    (_old_event : Event I) : Option (Event I) :=
  some (Event.Update args)

/-- Embeds `impl<I: GenericEvent> UpdateEvent for Event<I>`, `update`
(update.rs 67-74). -/
def Event.update {I U : Type} (e : Event I) (f : UpdateArgs → U) : Option U :=
  match e with
  | Event.Update args => some (f args)
  | _ => none

/-- Embeds the default method `update_args` (update.rs 22-24). -/
def Event.update_args {I : Type} (e : Event I) : Option UpdateArgs :=
  Event.update e (fun args => args)

/-- Embeds the default method `from_dt` (update.rs 15-17) at `Event`. -/
def Event.from_dt {I : Type} (dt : Rat) (old_event : Event I) :
    Option (Event I) :=
  Event.from_update_args (UpdateArgs.mk dt) old_event

/-- Tells whether an `Event` value is the `Input` variant; used to state
how `Event` lens construction depends on the old event. -/
def Event.is_input_variant {I : Type} : Event I → Bool
  | Event.Input _ => true
  | _ => false

/-- C1: Round-trip law for every kind implemented in the repository (focus,
controller-axis, update) on both composites: constructing via the kind-K
lens from payload `p` and an event value of kind K yields `Some`, and
extracting with `match_if` applied to the identity function yields
`Some p`, for every representable payload.  (The update kind has no `Input`
value of its kind, so the `Input` composite contributes the focus and
controller-axis cases; `Event` contributes all three.) -/
theorem roundtrip_law :
    (∀ (p b : Bool),
      (Input.from_focused p (Input.Focus b)).bind
        (fun x => Input.focus x (fun v => v)) = some p)
  ∧ (∀ (p a : ControllerAxisArgs),
      (Input.from_controller_axis_args p
          (Input.Move (Motion.ControllerAxis a))).bind
        (fun x => Input.controller_axis x (fun v => v)) = some p)
  ∧ (∀ (p b : Bool),
      (Event.from_focused Input.from_focused p
          (Event.Input (Input.Focus b))).bind
        (fun x => Event.focus Input.focus x (fun v => v)) = some p)
  ∧ (∀ (p a : ControllerAxisArgs),
      (Event.from_controller_axis_args Input.from_controller_axis_args p
          (Event.Input (Input.Move (Motion.ControllerAxis a)))).bind
        (fun x => Event.controller_axis Input.controller_axis x
          (fun v => v)) = some p)
  ∧ (∀ (p u : UpdateArgs),
      (Event.from_update_args (I := Input) p (Event.Update u)).bind
        (fun x => Event.update x (fun v => v)) = some p) := by
  refine ⟨?_, ?_, ?_, ?_, ?_⟩ <;> intros <;> rfl

/-- C7: Delegation correctness: on `Event.Input inner`, `event_id` equals
the identity of `inner`, and the focus and controller-axis `match_if`
operations equal the corresponding operations of `inner`. -/
theorem event_lens_delegation :
    (∀ (inner : Input),
      Event.event_id Input.event_id (Event.Input inner)
        = Input.event_id inner)
  ∧ (∀ (U : Type) (inner : Input) (f : Bool → U),
      Event.focus Input.focus (Event.Input inner) f = Input.focus inner f)
  ∧ (∀ (U : Type) (inner : Input) (f : ControllerAxisArgs → U),
      Event.controller_axis Input.controller_axis (Event.Input inner) f
        = Input.controller_axis inner f) := by
  refine ⟨?_, ?_, ?_⟩ <;> intros <;> rfl

/-- C8: Disjointness: a constructed value of kind K answers `None` to the
`match_if` of every other implemented kind, for every closure; in
particular `Input.update` and `Input.from_update_args` are constantly
`None`. -/
theorem kind_disjointness :
    (∀ (U : Type) (b : Bool) (f : ControllerAxisArgs → U),
      Input.controller_axis (Input.Focus b) f = none)
  ∧ (∀ (U : Type) (a : ControllerAxisArgs) (f : Bool → U),
      Input.focus (Input.Move (Motion.ControllerAxis a)) f = none)
  ∧ (∀ (U : Type) (e : Input) (f : UpdateArgs → U), Input.update e f = none)
  ∧ (∀ (args : UpdateArgs) (old : Input),
      Input.from_update_args args old = none)
  ∧ (∀ (U : Type) (b : Bool) (f : ControllerAxisArgs → U),
      Event.controller_axis Input.controller_axis
        (Event.Input (Input.Focus b)) f = none)
  ∧ (∀ (U : Type) (b : Bool) (f : UpdateArgs → U),
      Event.update (Event.Input (Input.Focus b)) f = none)
  ∧ (∀ (U : Type) (a : ControllerAxisArgs) (f : Bool → U),
      Event.focus Input.focus
        (Event.Input (Input.Move (Motion.ControllerAxis a))) f = none)
  ∧ (∀ (U : Type) (a : ControllerAxisArgs) (f : UpdateArgs → U),
      Event.update (Event.Input (Input.Move (Motion.ControllerAxis a))) f
        = none)
  ∧ (∀ (U : Type) (u : UpdateArgs) (f : Bool → U),
      Event.focus Input.focus (Event.Update u) f = none)
  ∧ (∀ (U : Type) (u : UpdateArgs) (f : ControllerAxisArgs → U),
      Event.controller_axis Input.controller_axis (Event.Update u) f
        = none) := by
  refine ⟨?_, ?_, ?_, ?_, ?_, ?_, ?_, ?_, ?_, ?_⟩ <;> intros <;> rfl

/-- C9: Identity totality: `event_id` is defined on every constructible
value of both composites, by exhaustive match; one equation per variant
(every `Motion` sub-variant included) covers the whole value space. -/
theorem event_id_totality :
    (∀ (b : Bool), Input.event_id (Input.Cursor b) = EventId.CURSOR)
  ∧ (∀ (b : Bool), Input.event_id (Input.Focus b) = EventId.FOCUS)
  ∧ Input.event_id Input.Close = EventId.CLOSE
  ∧ (∀ (x y : Rat),
      Input.event_id (Input.Move (Motion.MouseCursor x y))
        = EventId.MOUSE_CURSOR)
  ∧ (∀ (x y : Rat),
      Input.event_id (Input.Move (Motion.MouseRelative x y))
        = EventId.MOUSE_RELATIVE)
  ∧ (∀ (x y : Rat),
      Input.event_id (Input.Move (Motion.MouseScroll x y))
        = EventId.MOUSE_SCROLL)
  ∧ (∀ (a : ControllerAxisArgs),
      Input.event_id (Input.Move (Motion.ControllerAxis a))
        = EventId.CONTROLLER_AXIS)
  ∧ (∀ (t : TouchArgs),
      Input.event_id (Input.Move (Motion.Touch t)) = EventId.TOUCH)
  ∧ (∀ (b : Button), Input.event_id (Input.Press b) = EventId.PRESS)
  ∧ (∀ (b : Button), Input.event_id (Input.Release b) = EventId.RELEASE)
  ∧ (∀ (w h : Nat), Input.event_id (Input.Resize w h) = EventId.RESIZE)
  ∧ (∀ (s : String), Input.event_id (Input.Text s) = EventId.TEXT)
  ∧ (∀ (u : UpdateArgs),
      Event.event_id Input.event_id (Event.Update u) = EventId.UPDATE)
  ∧ (∀ (r : RenderArgs),
      Event.event_id Input.event_id (Event.Render r) = EventId.RENDER)
  ∧ (∀ (r : AfterRenderArgs),
      Event.event_id Input.event_id (Event.AfterRender r)
        = EventId.AFTER_RENDER)
  ∧ (∀ (i : IdleArgs),
      Event.event_id Input.event_id (Event.Idle i) = EventId.IDLE)
  ∧ (∀ (inner : Input),
      Event.event_id Input.event_id (Event.Input inner)
        = Input.event_id inner) := by
  refine ⟨?_, ?_, ?_, ?_, ?_, ?_, ?_, ?_, ?_, ?_, ?_, ?_, ?_, ?_, ?_, ?_, ?_⟩
    <;> intros <;> rfl

/-- C10: `with_args` is total and applies its closure exactly once to the
erased payload of the value, returning the closure result: it factors as
`f` applied to the payload obtained with the identity closure, on every
variant of both composites; the payload of `Input.Close` is the erased
`None` of type `Option ()`. -/
theorem with_args_invokes_once :
    (∀ (U : Type) (e : Input) (f : AnyVal → U),
      Input.with_args e f = f (Input.with_args e (fun a => a)))
  ∧ (∀ (U : Type) (e : Event Input) (f : AnyVal → U),
      Event.with_args Input.with_args e f
        = f (Event.with_args Input.with_args e (fun a => a)))
  ∧ Input.with_args Input.Close (fun a => a) = AnyVal.optionUnit none := by
  refine ⟨?_, ?_, rfl⟩
  · intro U e f
    cases e with
    | Move m => cases m <;> rfl
    | _ => rfl
  · intro U e f
    cases e with
    | Input inner => cases inner with
      | Move m => cases m <;> rfl
      | _ => rfl
    | _ => rfl

/-- C2 counterexample: the claim says the `Event` composite construct
operations return `Some` for every old event value; at the concrete old
values `Event.Update` and `Event.Render` they return `None`. -/
theorem event_construct_tick_old_counterexample :
    Event.from_focused Input.from_focused true
        (Event.Update (UpdateArgs.mk 0)) = none
  ∧ Event.from_controller_axis_args Input.from_controller_axis_args
        (ControllerAxisArgs.mk 0 0 0) (Event.Render (RenderArgs.mk 0))
      = none :=
  ⟨rfl, rfl⟩

/-- C2 amended: the `Event` composite construct operations for the
Input-sub-algebra kinds return `Some` exactly when the old event is the
`Event.Input` variant (the constructed value wraps the inner construct
result) and return `None` when the old event is any tick variant
(`Update`, `Render`, `AfterRender`, `Idle`). -/
theorem event_construct_requires_input_old :
    (∀ (p : Bool) (inner : Input),
      Event.from_focused Input.from_focused p (Event.Input inner)
        = some (Event.Input (Input.Focus p)))
  ∧ (∀ (a : ControllerAxisArgs) (inner : Input),
      Event.from_controller_axis_args Input.from_controller_axis_args a
          (Event.Input inner)
        = some (Event.Input (Input.Move (Motion.ControllerAxis a))))
  ∧ (∀ (p : Bool) (u : UpdateArgs),
      Event.from_focused Input.from_focused p (Event.Update u) = none)
  ∧ (∀ (p : Bool) (r : RenderArgs),
      Event.from_focused Input.from_focused p (Event.Render r) = none)
  ∧ (∀ (p : Bool) (r : AfterRenderArgs),
      Event.from_focused Input.from_focused p (Event.AfterRender r) = none)
  ∧ (∀ (p : Bool) (i : IdleArgs),
      Event.from_focused Input.from_focused p (Event.Idle i) = none)
  ∧ (∀ (a : ControllerAxisArgs) (u : UpdateArgs),
      Event.from_controller_axis_args Input.from_controller_axis_args a
        (Event.Update u) = none)
  ∧ (∀ (a : ControllerAxisArgs) (r : RenderArgs),
      Event.from_controller_axis_args Input.from_controller_axis_args a
        (Event.Render r) = none)
  ∧ (∀ (a : ControllerAxisArgs) (r : AfterRenderArgs),
      Event.from_controller_axis_args Input.from_controller_axis_args a
        (Event.AfterRender r) = none)
  ∧ (∀ (a : ControllerAxisArgs) (i : IdleArgs),
      Event.from_controller_axis_args Input.from_controller_axis_args a
        (Event.Idle i) = none) := by
  refine ⟨?_, ?_, ?_, ?_, ?_, ?_, ?_, ?_, ?_, ?_⟩ <;> intros <;> rfl

/-- C3 counterexample: the claim says construction never depends on the old
event; at payload `true` the focus construct on `Event` differs between the
old values `Event.Input Input.Close` and `Event.Update`. -/
theorem construct_stale_state_counterexample :
    Event.from_focused Input.from_focused true (Event.Input Input.Close)
      ≠ Event.from_focused Input.from_focused true
          (Event.Update (UpdateArgs.mk 0)) := by
  decide

/-- C3 amended: construction never depends on the payload of the old event:
the `Input` composite constructs (all three kinds) and the `Event` update
construct ignore the old event entirely, and the `Event` focus and
controller-axis constructs depend only on the payload and on whether the
old event is the `Event.Input` variant. -/
theorem construct_old_payload_independence :
    (∀ (p : Bool) (o1 o2 : Input),
      Input.from_focused p o1 = Input.from_focused p o2)
  ∧ (∀ (a : ControllerAxisArgs) (o1 o2 : Input),
      Input.from_controller_axis_args a o1
        = Input.from_controller_axis_args a o2)
  ∧ (∀ (a : UpdateArgs) (o1 o2 : Input),
      Input.from_update_args a o1 = Input.from_update_args a o2)
  ∧ (∀ (a : UpdateArgs) (o1 o2 : Event Input),
      Event.from_update_args a o1 = Event.from_update_args a o2)
  ∧ (∀ (p : Bool) (o1 o2 : Event Input),
      o1.is_input_variant = o2.is_input_variant →
      Event.from_focused Input.from_focused p o1
        = Event.from_focused Input.from_focused p o2)
  ∧ (∀ (a : ControllerAxisArgs) (o1 o2 : Event Input),
      o1.is_input_variant = o2.is_input_variant →
      Event.from_controller_axis_args Input.from_controller_axis_args a o1
        = Event.from_controller_axis_args Input.from_controller_axis_args
            a o2) := by
  refine ⟨fun _ _ _ => rfl, fun _ _ _ => rfl, fun _ _ _ => rfl,
    fun _ _ _ => rfl, ?_, ?_⟩
  · intro p o1 o2 h
    cases o1 <;> cases o2 <;> first | rfl | simp [Event.is_input_variant] at h
  · intro a o1 o2 h
    cases o1 <;> cases o2 <;> first | rfl | simp [Event.is_input_variant] at h

/-- C3 amended witness: the variant-class hypothesis discharged at the
concrete old values `Event.Update` and `Event.Idle`. -/
theorem construct_old_payload_independence_witness :
    Event.from_focused Input.from_focused true (Event.Update (UpdateArgs.mk 0))
      = Event.from_focused Input.from_focused true
          (Event.Idle (IdleArgs.mk 0)) :=
  construct_old_payload_independence.2.2.2.2.1 true
    (Event.Update (UpdateArgs.mk 0)) (Event.Idle (IdleArgs.mk 0)) (by decide)

/-- C4 counterexample: the claim says every identifier that `event_id` can
return, including `CLOSE` for `Input.Close`, is reconstructed to `Some` by
`Input.from_args` when given the erased payload `with_args` produces; at
the concrete input `Input.Close` the identity is `CLOSE`, the erased
payload is `None : Option ()`, yet `from_args` returns `None` (the guard
chain has no `CLOSE` arm). -/
theorem close_identifier_not_reconstructed :
    Input.event_id Input.Close = EventId.CLOSE
  ∧ Input.with_args Input.Close (fun a => a) = AnyVal.optionUnit none
  ∧ Input.from_args (Input.event_id Input.Close)
      (Input.with_args Input.Close (fun a => a)) Input.Close
      = Except.ok none :=
  ⟨rfl, rfl, rfl⟩

/-- C4 amended: `Input.from_args` applied to the identity and the
`with_args`-erased payload of a value `e` returns `Some e` for every `e`
other than `Input.Close`; for `CLOSE` it returns `None` (no guard arm),
and it also returns `None` for the identifiers unknown to `Input`
(`UPDATE`, `RENDER`, `AFTER_RENDER`, `IDLE`). -/
theorem from_args_known_payload_roundtrip :
    (∀ (e : Input) (old : Input), e ≠ Input.Close →
      Input.from_args (Input.event_id e) (Input.with_args e (fun a => a)) old
        = Except.ok (some e))
  ∧ (∀ (old : Input),
      Input.from_args EventId.CLOSE (AnyVal.optionUnit none) old
        = Except.ok none)
  ∧ (∀ (any : AnyVal) (old : Input),
      Input.from_args EventId.UPDATE any old = Except.ok none)
  ∧ (∀ (any : AnyVal) (old : Input),
      Input.from_args EventId.RENDER any old = Except.ok none)
  ∧ (∀ (any : AnyVal) (old : Input),
      Input.from_args EventId.AFTER_RENDER any old = Except.ok none)
  ∧ (∀ (any : AnyVal) (old : Input),
      Input.from_args EventId.IDLE any old = Except.ok none) := by
  refine ⟨?_, fun _ => rfl, fun _ _ => rfl, fun _ _ => rfl,
    fun _ _ => rfl, fun _ _ => rfl⟩
  intro e old h
  cases e with
  | Close => exact absurd rfl h
  | Move m => cases m <;> rfl
  | _ => rfl

/-- C4 amended witness: the non-Close hypothesis discharged at the concrete
value `Input.Focus true`. -/
theorem from_args_known_payload_roundtrip_witness :
    Input.from_args (Input.event_id (Input.Focus true))
        (Input.with_args (Input.Focus true) (fun a => a)) Input.Close
      = Except.ok (some (Input.Focus true)) :=
  from_args_known_payload_roundtrip.1 (Input.Focus true) Input.Close
    (by decide)

/-- C5 counterexample: the claim says that for a non-tick identifier
`Event.from_args` always delegates to the inner type; at the concrete
input with identifier `FOCUS`, payload `bool true`, and old event
`Event.Update`, the inner `Input.from_args` recognizes the pair (second
conjunct), yet `Event.from_args` returns `None` without delegating. -/
theorem event_from_args_tick_old_no_delegation :
    Event.from_args Input.from_args EventId.FOCUS (AnyVal.bool true)
        (Event.Update (UpdateArgs.mk 0)) = Except.ok none
  ∧ Input.from_args EventId.FOCUS (AnyVal.bool true) Input.Close
      = Except.ok (some (Input.Focus true)) :=
  ⟨rfl, rfl⟩

/-- C5 amended: `Event.from_args` handles the four tick identifiers
directly on `Event` from the matching payload; for every other identifier
it delegates to the inner `from_args` only when the old event is the
`Event.Input` variant, wrapping a `Some` result in `Event.Input` and
propagating `None` and panics, and it returns `None` without delegating
when the old event is a tick variant. -/
theorem event_from_args_composition :
    (∀ (u : UpdateArgs) (old : Event Input),
      Event.from_args Input.from_args EventId.UPDATE (AnyVal.updateArgs u)
        old = Except.ok (some (Event.Update u)))
  ∧ (∀ (r : RenderArgs) (old : Event Input),
      Event.from_args Input.from_args EventId.RENDER (AnyVal.renderArgs r)
        old = Except.ok (some (Event.Render r)))
  ∧ (∀ (r : AfterRenderArgs) (old : Event Input),
      Event.from_args Input.from_args EventId.AFTER_RENDER
        (AnyVal.afterRenderArgs r) old = Except.ok (some (Event.AfterRender r)))
  ∧ (∀ (i : IdleArgs) (old : Event Input),
      Event.from_args Input.from_args EventId.IDLE (AnyVal.idleArgs i) old
        = Except.ok (some (Event.Idle i)))
  ∧ (∀ (id : EventId) (any : AnyVal) (inner : Input),
      id ≠ EventId.UPDATE → id ≠ EventId.RENDER →
      id ≠ EventId.AFTER_RENDER → id ≠ EventId.IDLE →
      Event.from_args Input.from_args id any (Event.Input inner)
        = (Input.from_args id any inner).map (Option.map Event.Input))
  ∧ (∀ (id : EventId) (any : AnyVal) (u : UpdateArgs),
      id ≠ EventId.UPDATE → id ≠ EventId.RENDER →
      id ≠ EventId.AFTER_RENDER → id ≠ EventId.IDLE →
      Event.from_args Input.from_args id any (Event.Update u)
        = Except.ok none)
  ∧ (∀ (id : EventId) (any : AnyVal) (r : RenderArgs),
      id ≠ EventId.UPDATE → id ≠ EventId.RENDER →
      id ≠ EventId.AFTER_RENDER → id ≠ EventId.IDLE →
      Event.from_args Input.from_args id any (Event.Render r)
        = Except.ok none)
  ∧ (∀ (id : EventId) (any : AnyVal) (r : AfterRenderArgs),
      id ≠ EventId.UPDATE → id ≠ EventId.RENDER →
      id ≠ EventId.AFTER_RENDER → id ≠ EventId.IDLE →
      Event.from_args Input.from_args id any (Event.AfterRender r)
        = Except.ok none)
  ∧ (∀ (id : EventId) (any : AnyVal) (i : IdleArgs),
      id ≠ EventId.UPDATE → id ≠ EventId.RENDER →
      id ≠ EventId.AFTER_RENDER → id ≠ EventId.IDLE →
      Event.from_args Input.from_args id any (Event.Idle i)
        = Except.ok none) := by
  refine ⟨fun _ _ => rfl, fun _ _ => rfl, fun _ _ => rfl, fun _ _ => rfl,
    ?_, ?_, ?_, ?_, ?_⟩
  · intro id any inner h1 h2 h3 h4
    rw [Event.from_args, if_neg h1, if_neg h2, if_neg h3, if_neg h4]
    cases h : Input.from_args id any inner with
    | ok o => cases o <;> simp [Except.map]
    | error e => simp [Except.map]
  all_goals
    intro id any x h1 h2 h3 h4
    simp [Event.from_args, h1, h2, h3, h4]

/-- C5 amended witness: the non-tick hypotheses discharged at the concrete
identifier `FOCUS`, payload `bool true`, and old event
`Event.Input Input.Close`. -/
theorem event_from_args_composition_witness :
    Event.from_args Input.from_args EventId.FOCUS (AnyVal.bool true)
        (Event.Input Input.Close)
      = (Input.from_args EventId.FOCUS (AnyVal.bool true) Input.Close).map
          (Option.map Event.Input) :=
  event_from_args_composition.2.2.2.2.1 EventId.FOCUS (AnyVal.bool true)
    Input.Close (by decide) (by decide) (by decide) (by decide)

/-- C6: Payload/identity mismatch is fatal, never a silent `None`: for
every identifier that `Input.from_args` recognizes (its eleven guard arms)
and every identifier that `Event.from_args` recognizes directly (the four
tick arms), an erased payload whose downcast to the type that identifier
implies fails makes the call panic with the source message (the result is
pinned to `Except.error`, so it is neither `None` nor a coerced value). -/
theorem from_args_payload_mismatch_fatal :
    (∀ (any : AnyVal) (old : Input), any.downcast_controllerAxisArgs = none →
      Input.from_args EventId.CONTROLLER_AXIS any old
        = Except.error "Expected ControllerAxisArgs")
  ∧ (∀ (any : AnyVal) (old : Input), any.downcast_bool = none →
      Input.from_args EventId.CURSOR any old = Except.error "Expected bool")
  ∧ (∀ (any : AnyVal) (old : Input), any.downcast_bool = none →
      Input.from_args EventId.FOCUS any old = Except.error "Expected bool")
  ∧ (∀ (any : AnyVal) (old : Input), any.downcast_f64Pair = none →
      Input.from_args EventId.MOUSE_CURSOR any old
        = Except.error "Expected (f64, f64)")
  ∧ (∀ (any : AnyVal) (old : Input), any.downcast_f64Pair = none →
      Input.from_args EventId.MOUSE_RELATIVE any old
        = Except.error "Expected (f64, f64)")
  ∧ (∀ (any : AnyVal) (old : Input), any.downcast_f64Pair = none →
      Input.from_args EventId.MOUSE_SCROLL any old
        = Except.error "Expected (f64, f64)")
  ∧ (∀ (any : AnyVal) (old : Input), any.downcast_button = none →
      Input.from_args EventId.PRESS any old = Except.error "Expected Button")
  ∧ (∀ (any : AnyVal) (old : Input), any.downcast_button = none →
      Input.from_args EventId.RELEASE any old
        = Except.error "Expected Button")
  ∧ (∀ (any : AnyVal) (old : Input), any.downcast_u32Pair = none →
      Input.from_args EventId.RESIZE any old
        = Except.error "Expected (u32, u32))")
  ∧ (∀ (any : AnyVal) (old : Input), any.downcast_string = none →
      Input.from_args EventId.TEXT any old = Except.error "Expected &str")
  ∧ (∀ (any : AnyVal) (old : Input), any.downcast_touchArgs = none →
      Input.from_args EventId.TOUCH any old
        = Except.error "Expected TouchArgs")
  ∧ (∀ (any : AnyVal) (old : Event Input), any.downcast_updateArgs = none →
      Event.from_args Input.from_args EventId.UPDATE any old
        = Except.error "Expected UpdateArgs")
  ∧ (∀ (any : AnyVal) (old : Event Input), any.downcast_renderArgs = none →
      Event.from_args Input.from_args EventId.RENDER any old
        = Except.error "Expected RenderArgs")
  ∧ (∀ (any : AnyVal) (old : Event Input),
      any.downcast_afterRenderArgs = none →
      Event.from_args Input.from_args EventId.AFTER_RENDER any old
        = Except.error "Expected AfterRenderArgs")
  ∧ (∀ (any : AnyVal) (old : Event Input), any.downcast_idleArgs = none →
      Event.from_args Input.from_args EventId.IDLE any old
        = Except.error "Expected IdleArgs") := by
  refine ⟨?_, ?_, ?_, ?_, ?_, ?_, ?_, ?_, ?_, ?_, ?_, ?_, ?_, ?_, ?_⟩ <;>
    · intro any old h
      simp [Input.from_args, Event.from_args, h]

/-- C6 witness: the failed-downcast hypothesis discharged at the spec
scenario: the `RESIZE` identifier with a text payload. -/
theorem from_args_payload_mismatch_fatal_witness :
    Input.from_args EventId.RESIZE (AnyVal.str "hello") Input.Close
      = Except.error "Expected (u32, u32))" :=
  from_args_payload_mismatch_fatal.2.2.2.2.2.2.2.2.1
    (AnyVal.str "hello") Input.Close rfl
